import Mathlib

/-
Verification of the ILI9341_T4 display driver (file src/ILI9341Driver.cpp)
against its natural-language specification.

The development is a shallow embedding of the driver code.  Pure functions
of the source become Lean functions; the stateful buffering coordinator and
the asynchronous upload state machine become explicit state-passing
functions over a `DriverState` record.  Hardware effects (SPI writes, DMA
descriptors, cache flushes, diff-buffer content) are recorded as values in
an explicit event list, and quantities produced by the hardware clock or by
the panel are passed in as explicit oracle parameters.  A handful of short
inline helpers live in the (absent) header file `ILI9341Driver.h`; each of
those is modelled from the specification text and carries a doc comment
saying so.
-/

namespace ILI9341

/-! ## Constants (from ILI9341Driver.h / the spec: a 240x320 panel) -/

def TFTWIDTH : Nat := 240

def TFTHEIGHT : Nat := 320

def NB_SCANLINES : Nat := 320

def NB_PIXELS : Nat := 76800

/-! ## Pixel pushers (C3 in the spec; claim C4)

Each `_pushpixels_modeN(fb, x, y, len)` of the source emits `len` RGB565
words read from the source framebuffer `fb`.  We embed each routine as the
list of framebuffer indices it reads, in emission order: the source line
`_writedata16_cont(fb[i])` becomes the element `i` of the list. -/

/-- Loop of `_pushpixels_mode0`: `const uint16_t* p = fb + x + (y * 240);
while (len-- > 0) writedata16(*p++);`. -/
def pushIdxFwd (p : Int) : Nat → List Int
  | 0 => []
  | n + 1 => p :: pushIdxFwd (p + 1) n

/-- Embedding of `_pushpixels_mode0(fb, x, y, len)` as the list of indices read. -/
def pushpixels_mode0 (x y : Int) (len : Nat) : List Int :=
  pushIdxFwd (x + y * 240) len

/-- Loop of `_pushpixels_mode2`: starts at `(239 - x) + 240*(319 - y)` and
reads `*p--`. -/
def pushIdxBwd (p : Int) : Nat → List Int
  | 0 => []
  | n + 1 => p :: pushIdxBwd (p - 1) n

/-- Embedding of `_pushpixels_mode2(fb, xx, yy, len)` as the list of indices read. -/
def pushpixels_mode2 (xx yy : Int) (len : Nat) : List Int :=
  pushIdxBwd ((239 - xx) + (319 - yy) * 240) len

/-- Loop of `_pushpixels_mode1`: emits `fb[x + 320*y]`, then `y--`;
on `y < 0` it restarts at `y = 239` with `x+1`. -/
def pushIdx1 (x y : Int) : Nat → List Int
  | 0 => []
  | n + 1 =>
      (x + 320 * y) :: (if y - 1 < 0 then pushIdx1 (x + 1) 239 n else pushIdx1 x (y - 1) n)

/-- Embedding of `_pushpixels_mode1(fb, xx, yy, len)`: `x = yy; y = 239 - xx;` then the loop. -/
def pushpixels_mode1 (xx yy : Int) (len : Nat) : List Int :=
  pushIdx1 yy (239 - xx) len

/-- Loop of `_pushpixels_mode3`: emits `fb[x + 320*y]`, then `y++`;
on `y >= 240` it restarts at `y = 0` with `x-1`. -/
def pushIdx3 (x y : Int) : Nat → List Int
  | 0 => []
  | n + 1 =>
      (x + 320 * y) :: (if 240 ≤ y + 1 then pushIdx3 (x - 1) 0 n else pushIdx3 x (y + 1) n)

/-- Embedding of `_pushpixels_mode3(fb, xx, yy, len)`: `x = 319 - yy; y = xx;` then the loop. -/
def pushpixels_mode3 (xx yy : Int) (len : Nat) : List Int :=
  pushIdx3 (319 - yy) xx len

/-- Successive reads descend by a 320-word stride, except for the jump of
`+ (320*239 + 1)` to the top of the next column. -/
def Stride320Down (l : List Int) : Prop :=
  ∀ k a b, l.get? k = some a → l.get? (k + 1) = some b → b = a - 320 ∨ b = a + 76481

/-- Successive reads ascend by a 320-word stride, except for the jump of
`- (320*239 + 1)` to the bottom of the previous column. -/
def Stride320Up (l : List Int) : Prop :=
  ∀ k a b, l.get? k = some a → l.get? (k + 1) = some b → b = a + 320 ∨ b = a - 76481

/-! ## Driver state (the buffering coordinator and upload state machine)

`DriverState` collects the member variables of `ILI9341Driver` that the
coordinator (`update`, `_buffer2fullCB`), the configuration mutators
(`setRotation`, `setRefreshMode`, `setScroll`) and the upload state machine
(`_subFrameTimerStartcb2`, `_subFrameInterruptDiff`, `_endframe`) read or
write.  Pointers (`_fb1`, `_fb2`, `_diff1`, `_diff2`, `_mirrorfb`, `_fb`,
`_diff`) are modelled as `Option Nat` addresses (`none` = NULL); the two
always-present dummy diffs are plain addresses.  The pending completion
callback `_pcb` can only ever be `&_buffer2fullCB` or NULL, so it is a
`Bool`.  The statistics accumulators for CPU/upload time depend on the
hardware pause/resume counters and are not modelled; the margin and
vsync-spacing accumulators are kept as plain lists of pushed values. -/

structure DriverState where
  width : Nat := 240
  height : Nat := 320
  rotation : Nat := 0
  refreshmode : Nat := 0
  lateStartOverride : Bool := true
  vsyncSpacing : Int := 2
  diffGap : Nat := 1
  compareMask : Nat := 0
  diff1 : Option Nat := none
  diff2 : Option Nat := none
  fb1 : Option Nat := none
  fb2 : Option Nat := none
  dummydiff1 : Nat := 100
  dummydiff2 : Nat := 101
  mirrorfb : Option Nat := none
  fb2full : Bool := false
  period : Nat := 0
  syncedEm : Nat := 0
  syncedScanline : Nat := 0
  pcb : Bool := false
  curFb : Option Nat := none
  curDiff : Option Nat := none
  dmaState : Bool := false
  lastDelta : Int := 0
  timeframestart : Int := 0
  lastY : Int := 0
  slinitpos : Int := 0
  emAsync : Nat := 0
  margin : Int := 320
  prevCasetX : Int := 0
  prevPasetY : Int := 0
  statsNbFrame : Nat := 0
  statsNbUploadedPixels : Int := 0
  statsNbTransactions : Nat := 0
  statsMargin : List Int := []
  statsVsync : List Int := []
  nbTeared : Nat := 0
  deriving Repr, DecidableEq

/-- Hardware effects of the coordinator and of the state machine, recorded
in emission order. -/
inductive DrvEvent where
  | computeDummyDiff (d : Nat)
  | computeDiff (d : Nat) (copy : Bool)
  | copyfb (dst : Nat)
  | flushCache (dst : Nat)
  | launchAsync (fb d : Nat)
  | updateNow (fb d : Nat)
  | caset (x : Int)
  | paset (y : Int)
  | dmaPixels (idx len : Int)
  deriving Repr, DecidableEq

/-- Modelled from the spec: the buffering mode is derived from the bound
framebuffers, "NO (no target fbs configured), DOUBLE (one target fb),
TRIPLE (two target fbs)" (the deriving function itself lives in the missing
header). `setFramebuffers` guarantees `fb1` is set whenever any fb is. -/
inductive BufMode where
  | noBuffering
  | doubleBuffering
  | tripleBuffering
  deriving Repr, DecidableEq

/-- Modelled from the spec (section 3, "Buffering mode (derived)"): NO
when no target framebuffer is bound, DOUBLE with one, TRIPLE with two
(`setFramebuffers` guarantees `fb1` is bound whenever `fb2` is). -/
def bufferingMode (s : DriverState) : BufMode :=
  if s.fb1 = none then .noBuffering
  else if s.fb2 = none then .doubleBuffering
  else .tripleBuffering

/-- Modelled from the spec: `resync()` lives in the missing header.  Per
section 4.4, `late_start_ratio_override` "forces one-shot resync behavior
(treated as 0) and self-clears"; per section 4.5 the mirror mutation sites
are exactly the coordinator launches and the explicit NULL assignments,
which in the source are separate statements next to the `resync()` calls
(`begin`, `sleep`, `setRotation`, `setFramebuffers`), so `resync` itself
only arms the one-shot flag. -/
def resync (s : DriverState) : DriverState :=
  { s with lateStartOverride := true }

/-- Modelled from the spec: header helper `_clip(v, lo, hi)` clamps `v`
into `[lo, hi]` ("rotation out of [0,3] is silently clamped"). -/
def clip (v lo hi : Nat) : Nat := max lo (min v hi)

/-- Modelled from the spec: header helper `_nbScanlineDuring(em)` converts
elapsed microseconds to scanlines, "em_async * 320 / P" (section 4.4). -/
def nbScanlineDuring (period em : Nat) : Int := ((em * 320) / period : Nat)

/-- Helper `_swapdiff()` (header one-liner): exchange `_diff1` and `_diff2`. -/
def swapdiff (s : DriverState) : DriverState :=
  { s with diff1 := s.diff2, diff2 := s.diff1 }

/-- Helper `_swapdummydiff()` (header one-liner): exchange the two dummy diffs. -/
def swapdummydiff (s : DriverState) : DriverState :=
  { s with dummydiff1 := s.dummydiff2, dummydiff2 := s.dummydiff1 }

/-- Helper `_swapfb()` (header one-liner): exchange `_fb1` and `_fb2`. -/
def swapfb (s : DriverState) : DriverState :=
  { s with fb1 := s.fb2, fb2 := s.fb1 }

/-- Helper `_setCB(cb)` (header one-liner): store the pending completion callback;
`_setCB()` clears it.  Only `&_buffer2fullCB` is ever stored. -/
def setCB (s : DriverState) (cb : Bool) : DriverState := { s with pcb := cb }

/-- Statistics reset `statsReset()`: clears the per-run statistics. -/
def statsReset (s : DriverState) : DriverState :=
  { s with statsNbFrame := 0, statsNbUploadedPixels := 0, statsNbTransactions := 0,
           statsMargin := [], statsVsync := [], nbTeared := 0 }

/-- Embedding of `_endframe()` (lines 1443-1465): push the per-frame statistics; when
vsync is enabled, record the effective vsync spacing, count a teared frame
exactly when the final margin is negative, and push the margin. -/
def endframe (s : DriverState) : DriverState :=
  let s := { s with statsNbFrame := s.statsNbFrame + 1 }
  if 0 < s.vsyncSpacing then
    let s := if 0 < s.statsMargin.length then { s with statsVsync := s.statsVsync ++ [s.lastDelta] } else s
    let s := if s.margin < 0 then { s with nbTeared := s.nbTeared + 1 } else s
    { s with statsMargin := s.statsMargin ++ [s.margin] }
  else s

/-- Arming step of `_updateAsync(fb, diff)` once any previous upload has
completed (lines 916-982): reset the per-frame counters
(`_stats_nb_uploaded_pixels = 0`, `_margin = ILI9341_T4_NB_SCANLINES`,
lines 919-920), record the upload source and diff, set
`_dma_state = DMA_ON` and start the transfer.  NULL arguments are rejected
up front, before any state change.  The asynchronous completion of the
armed upload (including the immediate completion on an empty diff) is
modelled by `runPendingCB` / `waitUpdateAsyncComplete` below. -/
def updateAsyncArm (s : DriverState) (fb d : Option Nat) : DriverState × List DrvEvent :=
  if fb = none ∨ d = none then (s, [])
  else ({ s with statsNbUploadedPixels := 0, margin := (NB_SCANLINES : Int),
                 dmaState := true, curFb := fb, curDiff := d },
        [.launchAsync (fb.getD 0) (d.getD 0)])

/-- Embedding of `_buffer2fullCB()` (lines 714-733), invoked by the upload state machine
when the in-flight upload completes while a frame is staged in `fb2`:
depending on whether `_mirrorfb` was left non-NULL (real diff staged in
`diff2`) or NULL (dummy diff staged), swap the diff pair (resp. the dummy
diff pair) and the framebuffers, set `mirror = fb1`, clear `fb2full` and
launch the staged upload; finally clear the callback slot.  At invocation
time the previous upload has just finished, so the `waitUpdateAsyncComplete`
at the head of the inner `_updateAsync` call is a no-op and the call reduces
to the arming step. -/
def buffer2fullCB (s : DriverState) : DriverState × List DrvEvent :=
  if s.mirrorfb.isSome then
    let s := swapdiff s
    let s := swapfb s
    let s := { s with mirrorfb := s.fb1, fb2full := false }
    let t := updateAsyncArm s s.fb1 s.diff1
    (setCB t.1 false, t.2)
  else
    let s := swapdummydiff s
    let s := swapfb s
    let s := { s with mirrorfb := s.fb1, fb2full := false }
    let t := updateAsyncArm s s.fb1 (some s.dummydiff1)
    (setCB t.1 false, t.2)

/-- Completion point of an in-flight upload: the state machine reaches its
FINISH state (`_dma_state = DMA_IDLE`) and then invokes and clears the
pending completion callback, if any (lines 1138-1141). -/
def runPendingCB (s : DriverState) : DriverState × List DrvEvent :=
  let s := { s with dmaState := false }
  if s.pcb then buffer2fullCB { s with pcb := false } else (s, [])

/-- Modelled from the spec: `waitUpdateAsyncComplete()` (header) blocks
until no upload is in flight ("external wait_for_idle() used by
configuration mutators", section 5).  While waiting, the in-flight upload
completes and fires the pending callback; an upload launched by that
callback completes as well before the wait returns. -/
def waitUpdateAsyncComplete (s : DriverState) : DriverState × List DrvEvent :=
  if s.dmaState then
    let t := runPendingCB s
    ({ t.1 with dmaState := false }, t.2)
  else (s, [])

/-- Embedding of `_updateAsync(fb, diff)` as called by the coordinator: reject NULL
arguments, wait for any in-flight upload, then arm the new upload. -/
def updateAsync (s : DriverState) (fb d : Option Nat) : DriverState × List DrvEvent :=
  if fb = none ∨ d = none then (s, [])
  else
    let t := waitUpdateAsyncComplete s
    let u := updateAsyncArm t.1 fb d
    (u.1, t.2 ++ u.2)

/-- The blocking `while (_fb2full);` of the triple-buffering path: when a
frame is staged, the wait ends when the in-flight upload completes and its
callback clears `fb2full` (and launches the staged upload, which is then in
flight). -/
def waitFb2Free (s : DriverState) : DriverState × List DrvEvent :=
  if s.fb2full then runPendingCB s else (s, [])

/-- Embedding of `update(fb, force_full_redraw)` (lines 545-711), the buffering
coordinator.  `fb` is the address of the caller framebuffer.  Because
`asyncUpdateActive()` races against the upload completion interrupt, the
values it returns at the three successive call sites are oracle inputs
`b1`, `b2`, `b3` (in source order: the checks at lines 560/592/613, 639 and
649/673); a `false` reading after a `true` one means the upload completed in
between, which is when the pending callback (if any) fires. -/
def update (s : DriverState) (fb : Nat) (force : Bool) (b1 b2 b3 : Bool) :
    DriverState × List DrvEvent :=
  match bufferingMode s with
  | .noBuffering =>
      let t := waitUpdateAsyncComplete s
      let s := { t.1 with mirrorfb := none }
      (s, t.2 ++ [.computeDummyDiff s.dummydiff1, .updateNow fb s.dummydiff1])
  | .doubleBuffering =>
      if s.vsyncSpacing = -1 ∧ b1 then (s, []) else
      if s.diff1 = none ∨ s.mirrorfb = none ∨ force then
        let t := waitUpdateAsyncComplete s
        let s := t.1
        let evs := t.2 ++ [.computeDiff s.dummydiff1 true, .flushCache (s.fb1.getD 0)]
        let u := updateAsync s s.fb1 (some s.dummydiff1)
        ({ u.1 with mirrorfb := u.1.fb1 }, evs ++ u.2)
      else if s.diff2 = none then
        let t := waitUpdateAsyncComplete s
        let s := t.1
        if s.mirrorfb = none ∨ force then
          let evs := t.2 ++ [.computeDiff s.dummydiff1 true, .flushCache (s.fb1.getD 0)]
          let u := updateAsync s s.fb1 (some s.dummydiff1)
          ({ u.1 with mirrorfb := u.1.fb1 }, evs ++ u.2)
        else
          let evs := t.2 ++ [.computeDiff (s.diff1.getD 0) true, .flushCache (s.fb1.getD 0)]
          let u := updateAsync s s.fb1 s.diff1
          ({ u.1 with mirrorfb := u.1.fb1 }, evs ++ u.2)
      else
        if b2 then
          let evs := [DrvEvent.computeDiff (s.diff2.getD 0) false]
          let t := waitUpdateAsyncComplete s
          let s := t.1
          let evs := evs ++ t.2 ++ [.copyfb (s.fb1.getD 0)]
          let s := swapdiff s
          let evs := evs ++ [.flushCache (s.fb1.getD 0)]
          let u := updateAsync s s.fb1 s.diff1
          ({ u.1 with mirrorfb := u.1.fb1 }, evs ++ u.2)
        else
          let evs := [DrvEvent.computeDiff (s.diff1.getD 0) true, .flushCache (s.fb1.getD 0)]
          let u := updateAsync s s.fb1 s.diff1
          ({ u.1 with mirrorfb := u.1.fb1 }, evs ++ u.2)
  | .tripleBuffering =>
      if ¬ b1 then
        if s.diff2 = none ∨ s.mirrorfb = none ∨ force then
          let evs := [DrvEvent.computeDiff s.dummydiff1 true, .flushCache (s.fb1.getD 0)]
          let u := updateAsync s s.fb1 (some s.dummydiff1)
          ({ u.1 with mirrorfb := u.1.fb1 }, evs ++ u.2)
        else
          let evs := [DrvEvent.computeDiff (s.diff1.getD 0) true, .flushCache (s.fb1.getD 0)]
          let u := updateAsync s s.fb1 s.diff1
          ({ u.1 with mirrorfb := u.1.fb1 }, evs ++ u.2)
      else
        let t := if s.vsyncSpacing ≠ -1 then waitFb2Free s else (s, [])
        let s := t.1
        let evs0 := t.2
        if b2 then
          let s := setCB s false
          if s.mirrorfb.isSome ∧ ¬ force ∧ s.diff2.isSome then
            let evs := evs0 ++ [DrvEvent.computeDiff (s.diff2.getD 0) false,
                                .copyfb (s.fb2.getD 0), .flushCache (s.fb2.getD 0)]
            if b3 then
              ({ s with pcb := true, fb2full := true, mirrorfb := s.fb2 }, evs)
            else
              let s := swapdiff s
              let s := swapfb s
              let s := { s with mirrorfb := s.fb1 }
              let u := updateAsync s s.fb1 s.diff1
              (u.1, evs ++ u.2)
          else
            let evs := evs0 ++ [DrvEvent.computeDiff s.dummydiff2 false,
                                .copyfb (s.fb2.getD 0), .flushCache (s.fb2.getD 0)]
            if b3 then
              ({ s with pcb := true, fb2full := true, mirrorfb := none }, evs)
            else
              let s := swapdummydiff s
              let s := swapfb s
              let s := { s with mirrorfb := s.fb1 }
              let u := updateAsync s s.fb1 (some s.dummydiff1)
              (u.1, evs ++ u.2)
        else
          if s.mirrorfb = none ∨ force ∨ s.diff2 = none then
            let evs := evs0 ++ [DrvEvent.computeDiff s.dummydiff1 true, .flushCache (s.fb1.getD 0)]
            let u := updateAsync s s.fb1 (some s.dummydiff1)
            ({ u.1 with mirrorfb := u.1.fb1 }, evs ++ u.2)
          else
            let evs := evs0 ++ [DrvEvent.computeDiff (s.diff1.getD 0) true, .flushCache (s.fb1.getD 0)]
            let u := updateAsync s s.fb1 s.diff1
            ({ u.1 with mirrorfb := u.1.fb1 }, evs ++ u.2)

/-! ## Configuration mutators and timing helpers -/

/-- Embedding of `setRotation(m)` (lines 342-364): clamp to `[0,3]`; if the rotation is
unchanged return immediately; otherwise wait for any in-flight upload,
clear the mirror ("force full redraw"), reset the statistics, store the
rotation, update width/height and resync. -/
def setRotation (s : DriverState) (m : Nat) : DriverState × List DrvEvent :=
  let m := clip m 0 3
  if m = s.rotation then (s, [])
  else
    let t := waitUpdateAsyncComplete s
    let s := { t.1 with mirrorfb := none }
    let s := statsReset s
    let s := { s with rotation := m }
    let s := if m = 0 ∨ m = 2 then { s with width := TFTWIDTH, height := TFTHEIGHT }
             else { s with width := TFTHEIGHT, height := TFTWIDTH }
    (resync s, t.2)

/-- Embedding of `setRefreshMode(mode)` (lines 374-394).  Also returns the two data
bytes `(diva, 0x10 + mode)` written to the FRMCTR1 register (`none` when
nothing is written).  The period measured by `_sampleRefreshRate()` comes
from the panel and is an oracle input. -/
def setRefreshMode (s : DriverState) (mode : Int) (measuredPeriod : Nat) :
    (DriverState × List DrvEvent) × Option (Nat × Nat) :=
  if mode < 0 ∨ 31 < mode then ((s, []), none)
  else
    let s := { s with refreshmode := mode.toNat }
    let diva : Nat := if 16 ≤ mode then 1 else 0
    let m : Int := if 16 ≤ mode then mode - 16 else mode
    let t := waitUpdateAsyncComplete s
    let s := { t.1 with period := measuredPeriod }
    let s := statsReset s
    ((resync s, t.2), some (diva, 16 + m.toNat))

/-- Offset normalization in `setScroll(offset)` (lines 319-333): the value
written to the panel VSCRSADD register.  C++ integer division and modulus
truncate toward zero, i.e. `Int.tdiv` / `Int.tmod`. -/
def setScrollValue (offset : Int) : Int :=
  let off := if offset < 0 then offset + ((Int.tdiv (-offset) 320) + 1) * 320 else offset
  Int.tmod off 320

/-- Embedding of `_getScanLine(true)` (lines 413-439): query the panel for the current
scanline (the raw answer `res[0]` is an oracle input), reset `_synced_em`,
remap `[0,161]` to `[0,319]` by `sc = 2*raw - 3` clamped below at 0, store
the result in `_synced_scanline` and return it. -/
def getScanLineSync (s : DriverState) (raw : Nat) : DriverState × Int :=
  let s := { s with syncedEm := 0 }
  let sc : Int := 2 * (raw : Int) - 3
  let sc := if sc < 0 then 0 else sc
  ({ s with syncedScanline := sc.toNat }, sc)

/-- Embedding of `_getScanLine(false)` (line 417): the predicted scanline
`(_synced_scanline + (_synced_em * NB_SCANLINES) / _period) % NB_SCANLINES`.
The source computes in unsigned 64-bit arithmetic; every intermediate value
is far below `2^64`, so plain `Nat` arithmetic coincides. -/
def getScanLineNoSync (s : DriverState) : Nat :=
  (s.syncedScanline + (s.syncedEm * NB_SCANLINES) / s.period) % NB_SCANLINES

/-- Embedding of `_refreshRateForMode(mode)` (lines 458-467).  The source computes in
`double`; the computation is a composition of divisions and
multiplications embedded here over `ℚ` (the claim under test is about the
formula the code evaluates, not about binary64 rounding). -/
def refreshRateForMode (periodMode0 : ℚ) (mode : Int) : ℚ :=
  let freq : ℚ := 1000000 / periodMode0
  let freq := if 16 ≤ mode then freq / 2 else freq
  let m : Int := if 16 ≤ mode then mode - 16 else mode
  (freq * 16) / (16 + (m : ℚ))

/-! ## Upload state machine steps -/

/-- Embedding of `_subFrameTimerStartcb2()` (lines 1018-1104): entry of the DMA upload.
With vsync enabled the scanline race is resynchronized first
(`_slinitpos`, `_em_async`, `_timeframestart`, `_last_delta` come from the
hardware clock and the timing helpers; they are oracle inputs `slinit`,
`tfs`, `delta`).  The first diff read `(r, x, y, len)` is an oracle input
as well, the diff-stream content being outside the model.  A corrupt first
read (`r != 0`, or `len == 0`, or an `(x, y)` differing from the
column/page address programmed by `_updateAsync`) ends the frame without
writing any pixel; otherwise the DMA descriptor chain is armed on
`fb + x + 240*y` for `len` pixels. -/
def subFrameTimerStartcb2 (s : DriverState) (slinit tfs delta r x y len : Int) :
    DriverState × List DrvEvent :=
  let s := if 0 < s.vsyncSpacing then
      { s with slinitpos := slinit, emAsync := 0, lastDelta := delta, timeframestart := tfs }
    else s
  if r ≠ 0 ∨ len = 0 ∨ x ≠ s.prevCasetX ∨ y ≠ s.prevPasetY then
    let s := endframe s
    let s := { s with dmaState := false }
    let t := if s.pcb then buffer2fullCB { s with pcb := false } else (s, [])
    ({ t.1 with pcb := false }, t.2)
  else
    let s := { s with lastY := Int.tdiv (240 * y + x + len) 240,
                      statsNbUploadedPixels := len }
    (s, [.dmaPixels (x + y * 240) len])

/-- Embedding of `_subFrameInterruptDiff()` (lines 1108-1185): completion interrupt of
one DMA run.  With vsync enabled, fold the current scanline distance into
the running margin minimum; then read the next diff instruction (oracle
input `(r, x, y, len)`).  `r < 0` ends the frame (FINISH state, invoking a
pending completion callback); `r > 0` re-arms the interval timer to wait
for the scan; `r == 0` re-programs CASET/PASET where they changed and arms
the next DMA run. -/
def subFrameInterruptDiff (s : DriverState) (r x y len : Int) :
    DriverState × List DrvEvent :=
  let s := if 0 < s.vsyncSpacing then
      let m := s.lastY + 320 - s.slinitpos - nbScanlineDuring s.period s.emAsync
      if m < s.margin then { s with margin := m } else s
    else s
  if r < 0 then
    let s := endframe s
    let s := { s with dmaState := false }
    let t := if s.pcb then buffer2fullCB { s with pcb := false } else (s, [])
    ({ t.1 with pcb := false }, t.2)
  else if 0 < r then (s, [])
  else
    let evs := (if x ≠ s.prevCasetX then [DrvEvent.caset x] else []) ++
               (if y ≠ s.prevPasetY then [DrvEvent.paset y] else [])
    let s := { s with prevCasetX := x, prevPasetY := y,
                      lastY := Int.tdiv (240 * y + x + len) 240,
                      statsNbUploadedPixels := s.statsNbUploadedPixels + len }
    (s, evs ++ [.dmaPixels (x + y * 240) len])

/-! ## Concrete states used by witnesses and counterexamples -/

/-- A concrete driver state: triple buffering (both internal framebuffers
bound), two diff buffers, vsync spacing 2, a valid mirror (`fb1`) and an
upload in flight. -/
def tripleBusy : DriverState :=
  { fb1 := some 1, fb2 := some 2, diff1 := some 10, diff2 := some 11,
    mirrorfb := some 1, vsyncSpacing := 2, dmaState := true }

/-- A concrete driver state: double buffering, drop-on-busy vsync mode
(`vsync_spacing == -1`), valid mirror, an upload in flight. -/
def doubleBusy : DriverState :=
  { fb1 := some 1, fb2 := none, diff1 := some 10, diff2 := some 11,
    mirrorfb := some 1, vsyncSpacing := -1, dmaState := true }

theorem pushIdxFwd_eq (p : Int) (n : Nat) :
    pushIdxFwd p n = (List.range n).map (fun k : Nat => p + (k : Int)) := by
  induction n generalizing p with
  | zero => rfl
  | succ n ih =>
      rw [pushIdxFwd, ih, List.range_succ_eq_map, List.map_cons, List.map_map]
      congr 1
      · simp
      · apply List.map_congr_left
        intro a _
        simp only [Function.comp_apply]
        push_cast
        ring

theorem pushIdxBwd_eq (p : Int) (n : Nat) :
    pushIdxBwd p n = (List.range n).map (fun k : Nat => p - (k : Int)) := by
  induction n generalizing p with
  | zero => rfl
  | succ n ih =>
      rw [pushIdxBwd, ih, List.range_succ_eq_map, List.map_cons, List.map_map]
      congr 1
      · simp
      · apply List.map_congr_left
        intro a _
        simp only [Function.comp_apply]
        push_cast
        ring

theorem stride320down_cons (a : Int) (l : List Int)
    (h1 : ∀ b, l.get? 0 = some b → b = a - 320 ∨ b = a + 76481)
    (h2 : Stride320Down l) : Stride320Down (a :: l) := by
  intro k p q hp hq
  cases k with
  | zero =>
      rw [List.get?_cons_zero] at hp
      rw [List.get?_cons_succ] at hq
      cases hp
      exact h1 q hq
  | succ k =>
      rw [List.get?_cons_succ] at hp hq
      exact h2 k p q hp hq

theorem stride320up_cons (a : Int) (l : List Int)
    (h1 : ∀ b, l.get? 0 = some b → b = a + 320 ∨ b = a - 76481)
    (h2 : Stride320Up l) : Stride320Up (a :: l) := by
  intro k p q hp hq
  cases k with
  | zero =>
      rw [List.get?_cons_zero] at hp
      rw [List.get?_cons_succ] at hq
      cases hp
      exact h1 q hq
  | succ k =>
      rw [List.get?_cons_succ] at hp hq
      exact h2 k p q hp hq

theorem pushIdx1_get_zero (x y : Int) (n : Nat) :
    (pushIdx1 x y (n + 1)).get? 0 = some (x + 320 * y) := rfl

theorem pushIdx3_get_zero (x y : Int) (n : Nat) :
    (pushIdx3 x y (n + 1)).get? 0 = some (x + 320 * y) := rfl

theorem pushIdx1_stride (x y : Int) (n : Nat) (hy : 0 ≤ y) :
    Stride320Down (pushIdx1 x y n) := by
  induction n generalizing x y with
  | zero =>
      intro k a b ha _
      simp [pushIdx1] at ha
  | succ n ih =>
      rw [pushIdx1]
      split
      · have hy0 : y = 0 := by omega
        apply stride320down_cons
        · intro b hb
          cases n with
          | zero => simp [pushIdx1] at hb
          | succ m =>
              rw [pushIdx1_get_zero] at hb
              cases hb
              right
              omega
        · exact ih (x + 1) 239 (by norm_num)
      · apply stride320down_cons
        · intro b hb
          cases n with
          | zero => simp [pushIdx1] at hb
          | succ m =>
              rw [pushIdx1_get_zero] at hb
              cases hb
              left
              omega
        · exact ih x (y - 1) (by omega)

theorem pushIdx3_stride (x y : Int) (n : Nat) (hy : y ≤ 239) :
    Stride320Up (pushIdx3 x y n) := by
  induction n generalizing x y with
  | zero =>
      intro k a b ha _
      simp [pushIdx3] at ha
  | succ n ih =>
      rw [pushIdx3]
      split
      · have hy0 : y = 239 := by omega
        apply stride320up_cons
        · intro b hb
          cases n with
          | zero => simp [pushIdx3] at hb
          | succ m =>
              rw [pushIdx3_get_zero] at hb
              cases hb
              right
              omega
        · exact ih (x - 1) 0 (by norm_num)
      · apply stride320up_cons
        · intro b hb
          cases n with
          | zero => simp [pushIdx3] at hb
          | succ m =>
              rw [pushIdx3_get_zero] at hb
              cases hb
              left
              omega
        · exact ih x (y + 1) (by omega)

/-! ## Preservation lemmas for the asynchronous helpers -/

theorem updateAsyncArm_refreshmode (s : DriverState) (fb d : Option Nat) :
    (updateAsyncArm s fb d).1.refreshmode = s.refreshmode := by
  unfold updateAsyncArm
  split <;> rfl

theorem buffer2fullCB_refreshmode (s : DriverState) :
    (buffer2fullCB s).1.refreshmode = s.refreshmode := by
  unfold buffer2fullCB setCB
  split <;> rw [updateAsyncArm_refreshmode] <;> rfl

theorem runPendingCB_refreshmode (s : DriverState) :
    (runPendingCB s).1.refreshmode = s.refreshmode := by
  unfold runPendingCB
  dsimp only
  split
  · rw [buffer2fullCB_refreshmode]
  · rfl

theorem waitUpdateAsyncComplete_refreshmode (s : DriverState) :
    (waitUpdateAsyncComplete s).1.refreshmode = s.refreshmode := by
  unfold waitUpdateAsyncComplete
  split
  · show (runPendingCB s).1.refreshmode = s.refreshmode
    rw [runPendingCB_refreshmode]
  · rfl

theorem statsReset_refreshmode (s : DriverState) :
    (statsReset s).refreshmode = s.refreshmode := rfl

theorem resync_refreshmode (s : DriverState) :
    (resync s).refreshmode = s.refreshmode := rfl

theorem runPendingCB_of_pcb_false (s : DriverState) (h : s.pcb = false) :
    runPendingCB s = ({ s with dmaState := false }, []) := by
  unfold runPendingCB
  simp [h]

theorem waitUpdateAsyncComplete_of_pcb_false (s : DriverState) (h : s.pcb = false) :
    waitUpdateAsyncComplete s = ({ s with dmaState := false }, []) := by
  unfold waitUpdateAsyncComplete
  rw [runPendingCB_of_pcb_false s h]
  split
  · rfl
  · next hdma =>
      cases s
      simp_all

theorem endframe_mirrorfb (s : DriverState) : (endframe s).mirrorfb = s.mirrorfb := by
  unfold endframe
  dsimp only
  split_ifs <;> rfl

theorem endframe_pcb (s : DriverState) : (endframe s).pcb = s.pcb := by
  unfold endframe
  dsimp only
  split_ifs <;> rfl

theorem endframe_margin (s : DriverState) : (endframe s).margin = s.margin := by
  unfold endframe
  dsimp only
  split_ifs <;> rfl

theorem endframe_nbTeared (s : DriverState) (hv : 0 < s.vsyncSpacing) :
    (endframe s).nbTeared = if s.margin < 0 then s.nbTeared + 1 else s.nbTeared := by
  unfold endframe
  dsimp only
  rw [if_pos hv]
  split_ifs <;> rfl

theorem updateAsyncArm_fb1 (s : DriverState) (fb d : Option Nat) :
    (updateAsyncArm s fb d).1.fb1 = s.fb1 := by
  unfold updateAsyncArm
  split <;> rfl

theorem buffer2fullCB_fb1 (s : DriverState) :
    (buffer2fullCB s).1.fb1 = s.fb2 := by
  unfold buffer2fullCB setCB
  split <;> rw [updateAsyncArm_fb1] <;> rfl

theorem waitUpdateAsyncComplete_fb1_none (s : DriverState)
    (h1 : s.fb1 = none) (h2 : s.fb2 = none) :
    (waitUpdateAsyncComplete s).1.fb1 = none := by
  unfold waitUpdateAsyncComplete runPendingCB
  dsimp only
  split_ifs <;> simp [buffer2fullCB_fb1, h1, h2]

theorem updateAsyncArm_mirrorfb (s : DriverState) (fb d : Option Nat) :
    (updateAsyncArm s fb d).1.mirrorfb = s.mirrorfb := by
  unfold updateAsyncArm
  split <;> rfl

theorem updateAsync_mirrorfb_of_pcb_false (s : DriverState) (fb d : Option Nat)
    (h : s.pcb = false) : (updateAsync s fb d).1.mirrorfb = s.mirrorfb := by
  unfold updateAsync
  dsimp only
  split
  · rfl
  · rw [waitUpdateAsyncComplete_of_pcb_false s h]
    dsimp only
    rw [updateAsyncArm_mirrorfb]

theorem updateAsync_fb1_of_pcb_false (s : DriverState) (fb d : Option Nat)
    (h : s.pcb = false) : (updateAsync s fb d).1.fb1 = s.fb1 := by
  unfold updateAsync
  dsimp only
  split
  · rfl
  · rw [waitUpdateAsyncComplete_of_pcb_false s h]
    dsimp only
    rw [updateAsyncArm_fb1]

/-- Claim C4, counterexample: at rotation 1, two successively emitted
pixels starting from canonical (0,0) read framebuffer indices 76480 and
76160, which differ by 320 words, not by the 240-word stride the claim
states. -/
theorem pushpixels_mode1_stride_cex :
    pushpixels_mode1 0 0 2 = [76480, 76160] ∧
    (76160 : Int) - 76480 = -320 ∧
    ¬ ((76160 : Int) - 76480 = 240 ∨ (76160 : Int) - 76480 = -240) := by
  refine ⟨rfl, by norm_num, by norm_num⟩

/-- Claim C4 (amended): rotation 0 emits `len` consecutive words forward
from index `x + 240*y`; rotation 2 emits `len` consecutive words backward
from index `(239-x) + 240*(319-y)`; rotations 1 and 3 walk the framebuffer
by 320-word strides between successively emitted pixels (descending for
rotation 1, ascending for rotation 3), jumping to the adjacent column
(offset of 320*239+1 words) every 240 pixels. -/
theorem pushpixels_traversal (x y xx yy : Int) (len : Nat) (hxx : xx ≤ 239) :
    pushpixels_mode0 x y len = (List.range len).map (fun k : Nat => x + y * 240 + (k : Int)) ∧
    pushpixels_mode2 x y len
      = (List.range len).map (fun k : Nat => (239 - x) + (319 - y) * 240 - (k : Int)) ∧
    Stride320Down (pushpixels_mode1 xx yy len) ∧
    Stride320Up (pushpixels_mode3 xx yy len) := by
  refine ⟨pushIdxFwd_eq _ _, pushIdxBwd_eq _ _, ?_, ?_⟩
  · exact pushIdx1_stride yy (239 - xx) len (by omega)
  · exact pushIdx3_stride (319 - yy) xx len hxx

/-- Witness for `pushpixels_traversal` at a concrete input. -/
theorem pushpixels_traversal_witness :
    pushpixels_mode0 3 7 4
        = (List.range 4).map (fun k : Nat => 3 + 7 * 240 + (k : Int)) ∧
    pushpixels_mode2 3 7 4
        = (List.range 4).map (fun k : Nat => (239 - 3) + (319 - 7) * 240 - (k : Int)) ∧
    Stride320Down (pushpixels_mode1 3 7 4) ∧
    Stride320Up (pushpixels_mode3 3 7 4) :=
  pushpixels_traversal 3 7 3 7 4 (by norm_num)

/-- Claim C10: for every integer offset (negative ones included) the value
written by `setScroll` to the vertical-scroll register equals
`offset mod 320` and lies in `[0, 319]`. -/
theorem setScrollValue_mod (z : Int) :
    setScrollValue z = z % 320 ∧ 0 ≤ setScrollValue z ∧ setScrollValue z < 320 := by
  unfold setScrollValue
  by_cases hz : z < 0
  · rw [if_pos hz]
    have h1 : Int.tdiv (-z) 320 = (-z) / 320 := Int.tdiv_eq_ediv (by omega) (by norm_num)
    rw [h1]
    have h2 : 0 ≤ z + (-z / 320 + 1) * 320 := by omega
    rw [Int.tmod_eq_emod h2 (by norm_num)]
    omega
  · rw [if_neg hz]
    rw [Int.tmod_eq_emod (by omega) (by norm_num)]
    omega

/-- Claim C6: for a raw panel answer in `[0,161]`, the synchronizing read
stores and returns `max 0 (2*raw - 3)` (a value in `[0,319]`); for a
measured period `P > 0` the non-synchronizing read returns exactly
`(synced_scanline + elapsed*320/P) mod 320` in integer arithmetic, a value
below 320. -/
theorem getScanLine_spec (s t : DriverState) (raw : Nat)
    (hraw : raw ≤ 161) (hp : 0 < t.period) :
    (getScanLineSync s raw).2 = max 0 (2 * (raw : Int) - 3) ∧
    ((getScanLineSync s raw).1.syncedScanline : Int) = max 0 (2 * (raw : Int) - 3) ∧
    (getScanLineSync s raw).2 ≤ 319 ∧
    getScanLineNoSync t = (t.syncedScanline + (t.syncedEm * 320) / t.period) % 320 ∧
    getScanLineNoSync t < 320 := by
  unfold getScanLineSync getScanLineNoSync NB_SCANLINES
  dsimp only
  refine ⟨?_, ?_, ?_, rfl, Nat.mod_lt _ (by norm_num)⟩
  · split <;> omega
  · split <;> simp <;> omega
  · split <;> omega

/-- Witness for `getScanLine_spec` at a concrete input. -/
theorem getScanLine_spec_witness :
    (getScanLineSync tripleBusy 161).2 = max 0 (2 * (161 : Int) - 3) ∧
    ((getScanLineSync tripleBusy 161).1.syncedScanline : Int) = max 0 (2 * (161 : Int) - 3) ∧
    (getScanLineSync tripleBusy 161).2 ≤ 319 ∧
    getScanLineNoSync { tripleBusy with period := 7000, syncedEm := 100, syncedScanline := 5 }
      = ((5 : Nat) + (100 * 320) / 7000) % 320 ∧
    getScanLineNoSync { tripleBusy with period := 7000, syncedEm := 100, syncedScanline := 5 }
      < 320 :=
  getScanLine_spec _ _ 161 (by norm_num) (by norm_num)

/-- Claim C9: for a mode in `[0,31]` the computed refresh rate equals
`(1/P0) * 16/(16 + m')` with `m' = m` below 16 and `m' = m - 16` above,
and an additional division by 2 for modes at least 16 (`P0` is the
fastest-mode period in microseconds, so `1/P0` is carried as
`1000000/P0` Hz). -/
theorem refreshRateForMode_formula (p0 : ℚ) (mode : Int)
    (h0 : 0 ≤ mode) (h31 : mode ≤ 31) (hp : 0 < p0) :
    refreshRateForMode p0 mode
      = ((1000000 / p0) * (16 / (16 + (((if 16 ≤ mode then mode - 16 else mode) : Int) : ℚ))))
        / (if 16 ≤ mode then (2 : ℚ) else 1) := by
  unfold refreshRateForMode
  have hp0 : p0 ≠ 0 := ne_of_gt hp
  by_cases h : 16 ≤ mode
  · simp only [if_pos h]
    have hd : (0 : ℚ) ≤ ((mode - 16 : Int) : ℚ) := by
      exact_mod_cast sub_nonneg.mpr h
    have hne : (16 : ℚ) + ((mode - 16 : Int) : ℚ) ≠ 0 := by linarith
    field_simp
    ring
  · simp only [if_neg h]
    have hd : (0 : ℚ) ≤ ((mode : Int) : ℚ) := by exact_mod_cast h0
    have hne : (16 : ℚ) + ((mode : Int) : ℚ) ≠ 0 := by linarith
    field_simp

/-- Witness for `refreshRateForMode_formula`: mode 20 with a fastest-mode
period of 7000 microseconds gives 400/7 Hz. -/
theorem refreshRateForMode_formula_witness :
    refreshRateForMode 7000 20 = 400 / 7 := by
  have h := refreshRateForMode_formula 7000 20 (by norm_num) (by norm_num) (by norm_num)
  rw [h]
  norm_num

/-- Claim C8: `setRefreshMode` with a mode outside `[0,31]` returns at once
with the state untouched and nothing written to the panel; a mode in
`[16,31]` writes prescaler byte 1 and register value `0x10 + (mode - 16)`
to FRMCTR1; a mode in `[0,15]` writes prescaler byte 0 and register value
`0x10 + mode`.  The stored refresh mode is the requested mode. -/
theorem setRefreshMode_frmctr (s : DriverState) (mode : Int) (p : Nat) :
    ((mode < 0 ∨ 31 < mode) → setRefreshMode s mode p = ((s, []), none)) ∧
    (0 ≤ mode → mode ≤ 15 →
        ((setRefreshMode s mode p).2 = some (0, 16 + mode.toNat) ∧
         (setRefreshMode s mode p).1.1.refreshmode = mode.toNat)) ∧
    (16 ≤ mode → mode ≤ 31 →
        ((setRefreshMode s mode p).2 = some (1, 16 + (mode - 16).toNat) ∧
         (setRefreshMode s mode p).1.1.refreshmode = mode.toNat)) := by
  refine ⟨?_, ?_, ?_⟩
  · intro h
    simp only [setRefreshMode, if_pos h]
  · intro h0 h15
    have hvalid : ¬ (mode < 0 ∨ 31 < mode) := by omega
    have h16 : ¬ (16 ≤ mode) := by omega
    refine ⟨?_, ?_⟩ <;>
      simp [setRefreshMode, hvalid, h16, resync_refreshmode, statsReset_refreshmode,
            waitUpdateAsyncComplete_refreshmode]
  · intro h16 h31
    have hvalid : ¬ (mode < 0 ∨ 31 < mode) := by omega
    refine ⟨?_, ?_⟩ <;>
      simp [setRefreshMode, hvalid, h16, resync_refreshmode, statsReset_refreshmode,
            waitUpdateAsyncComplete_refreshmode]

/-- Witness for `setRefreshMode_frmctr` at the concrete modes 40 (invalid,
full no-op) and 20 (prescaled, writes bytes (1, 0x14)). -/
theorem setRefreshMode_frmctr_witness :
    setRefreshMode tripleBusy 40 7000 = ((tripleBusy, []), none) ∧
    (setRefreshMode tripleBusy 20 7000).2 = some (1, 20) := by
  constructor
  · exact (setRefreshMode_frmctr tripleBusy 40 7000).1 (by norm_num)
  · have h := ((setRefreshMode_frmctr tripleBusy 20 7000).2.2 (by norm_num) (by norm_num)).1
    rw [h]
    rfl

/-- Claim C1, counterexample: a refresh-mode change to the valid mode 5
returns with the mirror framebuffer pointer untouched (here still `fb1`,
not NULL), so the claim that every valid `setRefreshMode` call NULLs the
mirror is false on the code. -/
theorem setRefreshMode_keeps_mirror_cex :
    (setRefreshMode { tripleBusy with dmaState := false } 5 7000).1.1.mirrorfb = some 1 ∧
    (setRefreshMode { tripleBusy with dmaState := false } 5 7000).1.1.mirrorfb ≠ none ∧
    (setRefreshMode { tripleBusy with dmaState := false } 5 7000).1.1.refreshmode = 5 := by
  refine ⟨rfl, by decide, rfl⟩

/-- Claim C1 (amended): a rotation change to a new (clamped) rotation value
sets the mirror framebuffer pointer to NULL before returning, forcing the
next update to be a full redraw; a refresh-mode change never writes the
mirror pointer itself, so with no staged-frame completion callback pending
it returns with the mirror unchanged. -/
theorem rotation_clears_mirror_refresh_does_not (s : DriverState) (m : Nat) (mode : Int)
    (p : Nat) (hm : m ≤ 3) (hnew : m ≠ s.rotation) (hpcb : s.pcb = false) :
    (setRotation s m).1.mirrorfb = none ∧
    (setRefreshMode s mode p).1.1.mirrorfb = s.mirrorfb := by
  constructor
  · have hclip : clip m 0 3 = m := by unfold clip; omega
    unfold setRotation
    rw [hclip, if_neg hnew]
    dsimp only
    split <;> rfl
  · unfold setRefreshMode
    split
    · rfl
    · dsimp only
      rw [waitUpdateAsyncComplete_of_pcb_false { s with refreshmode := mode.toNat } hpcb]
      rfl

/-- Witness for `rotation_clears_mirror_refresh_does_not` at concrete
inputs. -/
theorem rotation_clears_mirror_witness :
    (setRotation { tripleBusy with dmaState := false } 1).1.mirrorfb = none ∧
    (setRefreshMode { tripleBusy with dmaState := false } 5 7000).1.1.mirrorfb
      = ({ tripleBusy with dmaState := false } : DriverState).mirrorfb :=
  rotation_clears_mirror_refresh_does_not _ 1 5 7000 (by norm_num) (by decide) rfl

/-- Claim C5: a corrupt first read of the diff stream in the asynchronous
upload path (code other than 0, or an empty run, or an `(x, y)` differing
from the previously programmed `prev_caset_x`/`prev_paset_y`) makes the
state machine end the frame without writing any pixel data and without
modifying the mirror pointer, and return to the idle DMA state (the
hypothesis `pcb = false` restricts the statement to the frame's own
effects: a pending coordinator callback would immediately launch the next
staged frame from FINISH, as it does after any frame). -/
theorem corrupt_first_read_graceful (s : DriverState) (slinit tfs delta r x y len : Int)
    (hpcb : s.pcb = false)
    (hcorrupt : r ≠ 0 ∨ len = 0 ∨ x ≠ s.prevCasetX ∨ y ≠ s.prevPasetY) :
    (subFrameTimerStartcb2 s slinit tfs delta r x y len).1.mirrorfb = s.mirrorfb ∧
    (subFrameTimerStartcb2 s slinit tfs delta r x y len).1.dmaState = false ∧
    (subFrameTimerStartcb2 s slinit tfs delta r x y len).2 = [] := by
  unfold subFrameTimerStartcb2
  dsimp only
  split
  all_goals
    try dsimp only
    simp only [endframe_pcb]
    try dsimp only
    simp only [hpcb, Bool.false_eq_true, if_false]
    refine ⟨?_, by trivial, by trivial⟩
    rw [endframe_mirrorfb]

/-- Witness for `corrupt_first_read_graceful` at a concrete corrupt read
(`r = 1`). -/
theorem corrupt_first_read_graceful_witness :
    (subFrameTimerStartcb2 tripleBusy 10 0 0 1 0 0 240).1.mirrorfb = tripleBusy.mirrorfb ∧
    (subFrameTimerStartcb2 tripleBusy 10 0 0 1 0 0 240).1.dmaState = false ∧
    (subFrameTimerStartcb2 tripleBusy 10 0 0 1 0 0 240).2 = [] :=
  corrupt_first_read_graceful tripleBusy 10 0 0 1 0 0 240 rfl (Or.inl (by norm_num))

/-- Claim C7: during a vsync-enabled upload (`vsync_spacing > 0`), each
completed DMA run folds the scanline distance into the running minimum,
`margin := min(margin, last_y + 320 - slinitpos - em_async*320/P)` (the
elapsed time converted to scanlines through the measured period), and
`_endframe` increments the teared-frame counter exactly when the final
margin is negative.  The hypothesis `pcb = false` restricts the margin
equation to the frame's own effects: a pending coordinator callback would
relaunch from FINISH via `_updateAsync`, whose arming step resets the
margin to 320 for the next frame. -/
theorem margin_and_tear (s t : DriverState) (r x y len : Int)
    (hv : 0 < s.vsyncSpacing) (hv2 : 0 < t.vsyncSpacing) (hpcb : s.pcb = false) :
    (subFrameInterruptDiff s r x y len).1.margin
      = min s.margin (s.lastY + 320 - s.slinitpos - ((s.emAsync * 320) / s.period : Nat)) ∧
    (endframe t).nbTeared = (if t.margin < 0 then t.nbTeared + 1 else t.nbTeared) := by
  refine ⟨?_, endframe_nbTeared t hv2⟩
  unfold subFrameInterruptDiff nbScanlineDuring
  dsimp only
  rw [if_pos hv]
  by_cases hm : s.lastY + 320 - s.slinitpos - ((s.emAsync * 320) / s.period : Nat) < s.margin
  · rw [if_pos hm]
    simp only [endframe_pcb]
    try dsimp only
    simp only [hpcb, Bool.false_eq_true, if_false]
    split_ifs with h1 h2
    all_goals try simp only [endframe_margin]
    all_goals exact (min_eq_right (le_of_lt hm)).symm
  · rw [if_neg hm]
    simp only [endframe_pcb]
    try dsimp only
    simp only [hpcb, Bool.false_eq_true, if_false]
    split_ifs with h1 h2
    all_goals try simp only [endframe_margin]
    all_goals exact (min_eq_left (not_lt.mp hm)).symm

/-- Witness for `margin_and_tear` at a concrete state: margin 320, one run
ending at row 100, start scanline 10, no elapsed time, period 7000. -/
theorem margin_and_tear_witness :
    (subFrameInterruptDiff { tripleBusy with lastY := 100, slinitpos := 10, period := 7000 }
        0 0 0 240).1.margin
      = min (320 : Int) (100 + 320 - 10 - ((0 * 320) / 7000 : Nat)) ∧
    (endframe { tripleBusy with margin := -1 }).nbTeared
      = (if (-1 : Int) < 0 then 0 + 1 else 0) :=
  margin_and_tear { tripleBusy with lastY := 100, slinitpos := 10, period := 7000 }
    { tripleBusy with margin := -1 } 0 0 0 240 (by decide) (by decide) rfl

/-- Claim C3, counterexample: in TRIPLE buffering with `vsync_spacing = -1`
and an upload in flight at every check, `update` does change driver state
and does perform work: the frame is staged (a diff is computed into diff2,
the caller framebuffer is copied into fb2, `fb2full` is set, a completion
callback is installed and the mirror is retagged to fb2), refuting "no
state changes, in every buffering mode". -/
theorem update_no_drop_triple_cex :
    (update { tripleBusy with vsyncSpacing := -1 } 7 false true true true).1.fb2full = true ∧
    (update { tripleBusy with vsyncSpacing := -1 } 7 false true true true).1.pcb = true ∧
    (update { tripleBusy with vsyncSpacing := -1 } 7 false true true true).1.mirrorfb = some 2 ∧
    (update { tripleBusy with vsyncSpacing := -1 } 7 false true true true).1
      ≠ { tripleBusy with vsyncSpacing := -1 } ∧
    (update { tripleBusy with vsyncSpacing := -1 } 7 false true true true).2 ≠ [] := by
  refine ⟨rfl, rfl, rfl, by decide, by decide⟩

/-- Claim C3 (amended): the drop-on-busy behaviour belongs to the
DOUBLE-buffering path alone: there, with `vsync_spacing = -1` and
`asyncUpdateActive()` reading true, `update` returns at once with the
state unchanged and no action performed (no diff computed, nothing copied,
nothing launched).  In TRIPLE buffering the frame is staged into fb2
instead, and in NO buffering an asynchronous upload is never in flight. -/
theorem update_drop_double (s : DriverState) (fb : Nat) (force : Bool) (b2 b3 : Bool)
    (hm : bufferingMode s = .doubleBuffering) (hv : s.vsyncSpacing = -1) :
    update s fb force true b2 b3 = (s, []) := by
  unfold update
  rw [hm]
  dsimp only
  rw [if_pos ⟨hv, rfl⟩]

/-- Witness for `update_drop_double` at a concrete busy double-buffered
state. -/
theorem update_drop_double_witness :
    update doubleBusy 7 false true true true = (doubleBusy, []) :=
  update_drop_double doubleBusy 7 false true true rfl rfl

/-- Claim C2, counterexample: triple buffering with the upload still in
flight at every check.  The non-dropped `update` returns with the mirror
pointer equal to fb2 (the staging tag), not fb1: the frame was staged in
fb2 (`fb2full` set) and will be uploaded by the completion callback. -/
theorem update_mirror_cex :
    (update tripleBusy 5 false true true true).1.mirrorfb = some 2 ∧
    (update tripleBusy 5 false true true true).1.fb1 = some 1 ∧
    (update tripleBusy 5 false true true true).1.fb2full = true ∧
    (update tripleBusy 5 false true true true).1.mirrorfb
      ≠ (update tripleBusy 5 false true true true).1.fb1 := by
  refine ⟨rfl, rfl, rfl, by decide⟩

/-- Claim C2 (amended): when a non-dropped `update` returns, either the
call launched (or synchronously performed) the upload and the mirror
equals fb1, or — triple buffering with the upload still active at all
three checks — the frame was staged into fb2, and the mirror holds the tag
consumed later by the completion callback: fb2 for a real diff, NULL for a
dummy diff (the callback sets it to fb1 when it launches the staged
upload).  The hypothesis `hwf` is the `setFramebuffers` invariant that fb2
is bound only when fb1 is. -/
theorem update_mirror_after (s : DriverState) (fb : Nat) (force : Bool) (b1 b2 b3 : Bool)
    (hwf : s.fb1 = none → s.fb2 = none)
    (hdrop : ¬ (bufferingMode s = .doubleBuffering ∧ s.vsyncSpacing = -1 ∧ b1 = true)) :
    (update s fb force b1 b2 b3).1.mirrorfb = (update s fb force b1 b2 b3).1.fb1 ∨
    (bufferingMode s = .tripleBuffering ∧ b1 = true ∧ b2 = true ∧ b3 = true ∧
      (update s fb force b1 b2 b3).1.fb2full = true ∧
      ((update s fb force b1 b2 b3).1.mirrorfb = (update s fb force b1 b2 b3).1.fb2 ∨
       (update s fb force b1 b2 b3).1.mirrorfb = none)) := by
  by_cases h1 : s.fb1 = none
  · have hbm : bufferingMode s = .noBuffering := by simp [bufferingMode, h1]
    left
    unfold update
    rw [hbm]
    dsimp only
    exact (waitUpdateAsyncComplete_fb1_none s h1 (hwf h1)).symm
  · by_cases h2 : s.fb2 = none
    · have hbm : bufferingMode s = .doubleBuffering := by simp [bufferingMode, h1, h2]
      left
      unfold update
      rw [hbm]
      dsimp only
      split_ifs with hA hB hC hD hE
      · exact absurd ⟨hbm, hA.1, hA.2⟩ hdrop
      all_goals rfl
    · have hbm : bufferingMode s = .tripleBuffering := by simp [bufferingMode, h1, h2]
      unfold update
      rw [hbm]
      dsimp only
      split_ifs
      all_goals first
        | (left ; rfl)
        | (right ; exact ⟨rfl, by simp_all, by simp_all, by simp_all, rfl, Or.inl rfl⟩)
        | (right ; exact ⟨rfl, by simp_all, by simp_all, by simp_all, rfl, Or.inr rfl⟩)
        | (left ;
           rw [updateAsync_mirrorfb_of_pcb_false _ _ _ rfl,
               updateAsync_fb1_of_pcb_false _ _ _ rfl])

/-- Witness for `update_mirror_after` at a concrete idle double-buffered
state. -/
theorem update_mirror_after_witness :
    (update { doubleBusy with vsyncSpacing := 2, dmaState := false } 5 false false false false).1.mirrorfb
      = (update { doubleBusy with vsyncSpacing := 2, dmaState := false } 5 false false false false).1.fb1 ∨
    (bufferingMode { doubleBusy with vsyncSpacing := 2, dmaState := false } = .tripleBuffering ∧
      false = true ∧ false = true ∧ false = true ∧
      (update { doubleBusy with vsyncSpacing := 2, dmaState := false } 5 false false false false).1.fb2full = true ∧
      ((update { doubleBusy with vsyncSpacing := 2, dmaState := false } 5 false false false false).1.mirrorfb
          = (update { doubleBusy with vsyncSpacing := 2, dmaState := false } 5 false false false false).1.fb2 ∨
       (update { doubleBusy with vsyncSpacing := 2, dmaState := false } 5 false false false false).1.mirrorfb
          = none)) :=
  update_mirror_after { doubleBusy with vsyncSpacing := 2, dmaState := false } 5 false
    false false false (by decide) (by decide)
